import Mathlib

/-!
Verification model of the GoHookProxy proxy dial layer.

The definitions below are a shallow embedding of the Go sources:
`proxy/pool.go` (connection pool, liveness probe, pooled-connection
wrapper), `proxy/proxy.go` (proxy manager dial path), `proxy/http.go`
(HTTP/HTTPS/HTTP2 CONNECT dialers and the SOCKS4/SOCKS5 dialers), the
`errors` package, and the `metrics` package counters.

Modelling conventions:
- Machine integers are `Int`/`Nat` (the Go counters are `int64`; none of
  the claim-relevant arithmetic can overflow at the modelled scales).
- A Go `net.Conn` is abstract. For the liveness probe it is a `LiveConn`
  carrying the peer wire state; at pool level a connection is a `PConn`
  with an identity and the probe verdict as a boolean field.
- Blocking reads from the intermediary are modelled by a script: the list
  of bytes the server will send. `io.ReadFull` fails when the script is
  too short. Written bytes are accumulated and returned.
- Contexts are the abstract `CtxState`: live, already canceled, or with
  an already-expired deadline.
- The metrics sink is `Option MC`; Go guards every call with a nil check
  in the caller, modelled by `withMC`.
-/

namespace GoHookProxy

/-- Outcome of a single one-byte `conn.Read` in the liveness probe,
abstracting the Go read result: a byte arrived (`err == nil`), the peer
closed (`io.EOF`), the read deadline fired (`net.Error` with
`Timeout() == true`), or some other error. -/
inductive ReadOutcome where
  | dataByte (b : Nat)
  | eofClosed
  | timedOut
  | otherErr
deriving DecidableEq, Repr

/-- What the peer side of a connection will do on the next read: bytes
already buffered, an open but silent peer (a deadline-bounded read times
out), a closed peer (EOF), or a broken transport (other read error). -/
inductive WireState where
  | buffered (b : Nat) (rest : List Nat)
  | silent
  | closedPeer
  | broken
deriving DecidableEq, Repr

/-- A transport connection as the liveness probe sees it: the peer wire
state plus whether a read deadline is currently set. -/
structure LiveConn where
  wire : WireState
  deadlineSet : Bool
deriving DecidableEq, Repr

/-- One `conn.Read` with a one-byte buffer. The probe always sets a
deadline first, so a silent peer yields a timeout error rather than
blocking; a buffered byte is consumed from the wire. -/
def connReadByte (c : LiveConn) : ReadOutcome × LiveConn :=
  match c.wire with
  | .buffered b rest =>
      (.dataByte b,
        { c with wire := match rest with
                         | [] => .silent
                         | r :: rs => .buffered r rs })
  | .silent => (.timedOut, c)
  | .closedPeer => (.eofClosed, c)
  | .broken => (.otherErr, c)

/-- Model of `isConnAlive` in pool.go: set a one-second read deadline,
attempt a one-byte read, then classify: EOF means dead, a timeout means
alive (deadline is reset), any other error means dead, and a successful
read means alive (deadline is reset; the byte read is dropped, the local
buffer is discarded). The nil-conn guard and the SetReadDeadline error
branch of the source concern degenerate conns not representable here. -/
def isConnAlive (c : LiveConn) : Bool × LiveConn :=
  let c1 : LiveConn := { c with deadlineSet := true }
  match connReadByte c1 with
  | (.eofClosed, c2) => (false, c2)
  | (.timedOut, c2) => (true, { c2 with deadlineSet := false })
  | (.otherErr, c2) => (false, c2)
  | (.dataByte _, c2) => (true, { c2 with deadlineSet := false })

/-- Bytes the next user of the connection can still read. -/
def pendingBytes (c : LiveConn) : List Nat :=
  match c.wire with
  | .buffered b rest => b :: rest
  | _ => []

/-- A pooled transport connection at pool level: an identity and the
verdict the liveness probe returns for it (the pool claims depend only on
the classification, not on the probe internals modelled by `LiveConn`). -/
structure PConn where
  id : Nat
  alive : Bool
deriving DecidableEq, Repr

/-- Entry of an idle list: a connection plus its expiry instant
(`connWithExpiry` in pool.go). -/
structure Entry where
  conn : PConn
  expiryTime : Int
deriving DecidableEq, Repr

/-- Counters of the metrics collector (metrics.go) touched by the pool
and the dialers. -/
structure MC where
  activeConns : Int
  totalConns : Int
  failedConns : Int
  totalDuration : Int
  errorTypeEvents : Nat
  protocolEvents : Nat
deriving DecidableEq, Repr

def MC.recordConnection (m : MC) (d : Int) : MC :=
  { m with totalConns := m.totalConns + 1, totalDuration := m.totalDuration + d }

def MC.recordFailure (m : MC) : MC :=
  { m with failedConns := m.failedConns + 1 }

def MC.incActive (m : MC) : MC :=
  { m with activeConns := m.activeConns + 1 }

def MC.decActive (m : MC) : MC :=
  { m with activeConns := m.activeConns - 1 }

def MC.recordErrorType (m : MC) : MC :=
  { m with errorTypeEvents := m.errorTypeEvents + 1 }

def MC.recordLatency (m : MC) (d : Int) : MC :=
  { m with totalDuration := m.totalDuration + d }

def MC.recordProtocol (m : MC) : MC :=
  { m with protocolEvents := m.protocolEvents + 1 }

/-- Every Go call into the metrics collector is guarded by a nil check in
the caller (`if p.metrics != nil { ... }`); a nil sink is `none` and the
call is skipped. -/
def withMC (f : MC → MC) : Option MC → Option MC
  | none => none
  | some m => some (f m)

/-- The connection pool state (`ConnPool` in pool.go). The Go
`map[string][]connWithExpiry` is an association list. -/
structure Pool where
  idle : List (String × List Entry)
  active : Int
  maxIdle : Int
  maxActive : Int
  idleTimeout : Int
deriving DecidableEq, Repr

/-- Go map indexing `p.idle[key]`: a missing key reads as the empty
slice. -/
def lookupIdle (m : List (String × List Entry)) (key : String) : List Entry :=
  match m.find? (fun kv => kv.1 == key) with
  | some kv => kv.2
  | none => []

/-- Go map assignment `p.idle[key] = v`. -/
def setIdle (m : List (String × List Entry)) (key : String) (v : List Entry) :
    List (String × List Entry) :=
  if m.any (fun kv => kv.1 == key) then
    m.map (fun kv => if kv.1 == key then (key, v) else kv)
  else m ++ [(key, v)]

/-- The pool key `network + ":" + addr` built inside Get and Put. -/
def connKey (network addr : String) : String := network ++ ":" ++ addr

/-- Model of `removeConn` in pool.go restricted to the list surgery: drop
the entry at the index (the closing of the removed conn is tracked by the
caller of the scan). -/
def removeConn (conns : List Entry) (index : Nat) : List Entry :=
  conns.eraseIdx index

/-- The scan loop of `ConnPool.Get` (pool.go lines 63-97). `orig` is the
Go local `conns` slice header captured before the loop; `cur` is the
current `p.idle[key]`. The loop walks indices from high to low. Expired
or probe-failing entries are closed and removed from `cur` via
`removeConn`. On the success path the source executes
`p.idle[key] = append(conns[:i], conns[i+1:]...)` against the STALE
`conns` snapshot, so the new idle list is `orig` minus index `i`, which
resurrects entries removed (and closed) earlier in the same scan.
Returns the reused entry (if any), the final idle list for the key, and
the conns that were closed. -/
def getScan (now : Int) (orig : List Entry) :
    Nat → List Entry → List PConn → Option Entry × List Entry × List PConn
  | 0, cur, closed => (none, cur, closed)
  | i + 1, cur, closed =>
    match orig.get? i with
    | none => (none, cur, closed)
    | some e =>
      if now > e.expiryTime then
        getScan now orig i (removeConn cur i) (e.conn :: closed)
      else if e.conn.alive then
        (some e, removeConn orig i, closed)
      else
        getScan now orig i (removeConn cur i) (e.conn :: closed)

/-- Result of `ConnPool.Get`: the limit error (`connection pool: max
active connections reached`), a reused idle connection, or the
`(nil, nil)` miss telling the caller to dial fresh. -/
inductive GetRes where
  | limitErr
  | reused (c : PConn)
  | miss
deriving DecidableEq, Repr

/-- Model of `ConnPool.Get` (pool.go lines 48-100). Checks the
active-connection ceiling first; otherwise scans the idle list for the
key. On reuse the source increments `p.active` twice: once via
`p.active++` and once more via `atomic.AddInt64(&p.active, 1)`. Returns
the result, the new pool, the list of conns closed during the scan, and
the metrics sink. -/
def poolGet (now : Int) (p : Pool) (network addr : String) (ms : Option MC) :
    GetRes × Pool × List PConn × Option MC :=
  let key := connKey network addr
  if p.active ≥ p.maxActive then
    (.limitErr, p, [], withMC MC.recordErrorType ms)
  else
    let conns := lookupIdle p.idle key
    if conns.length > 0 then
      match getScan now conns conns.length conns [] with
      | (some e, newIdle, closed) =>
        (.reused e.conn,
          { p with idle := setIdle p.idle key newIdle, active := p.active + 2 },
          closed,
          withMC (fun m => MC.recordConnection (MC.incActive m) 0) ms)
      | (none, newIdle, closed) =>
        (.miss, { p with idle := setIdle p.idle key newIdle }, closed, ms)
    else
      (.miss, p, [], ms)

/-- Model of `ConnPool.Put` (pool.go lines 113-144). If the per-key idle
list is already at `maxIdle` the connection is closed (flag `true`) and
the active counter decremented; otherwise it is appended with expiry
`now + idleTimeout` and the active counter decremented. The nil-conn
early return concerns a degenerate argument not representable here. -/
def poolPut (now : Int) (p : Pool) (network addr : String) (c : PConn) (ms : Option MC) :
    Pool × Bool × Option MC :=
  let key := connKey network addr
  let conns := lookupIdle p.idle key
  if (conns.length : Int) ≥ p.maxIdle then
    ({ p with active := p.active - 1 }, true, withMC MC.decActive ms)
  else
    ({ p with idle := setIdle p.idle key (conns ++ [⟨c, now + p.idleTimeout⟩]),
              active := p.active - 1 },
     false, withMC MC.decActive ms)

/-- The per-key filter of `ConnPool.CleanUp`: keep entries that are
unexpired and probe-alive, count the rest (each counted entry is closed
and `p.active` decremented by the sweep). -/
def cleanEntries (now : Int) : List Entry → List Entry × Nat
  | [] => ([], 0)
  | e :: rest =>
    let r := cleanEntries now rest
    if now > e.expiryTime then (r.1, r.2 + 1)
    else if !e.conn.alive then (r.1, r.2 + 1)
    else (e :: r.1, r.2)

/-- Model of `ConnPool.CleanUp` (pool.go lines 147-187): sweep every key,
drop expired or dead idle entries, delete keys whose lists become empty,
and decrement `p.active` once per dropped idle entry. The sweep does not
touch the metrics sink (it only logs). -/
def poolCleanUp (now : Int) (p : Pool) : Pool :=
  let cleanedMap := p.idle.map (fun kv => (kv.1, cleanEntries now kv.2))
  let newIdle := (cleanedMap.filter (fun kv => !kv.2.1.isEmpty)).map
    (fun kv => (kv.1, kv.2.1))
  let cleanedCount : Nat := cleanedMap.foldl (fun acc kv => acc + kv.2.2) 0
  { p with idle := newIdle, active := p.active - (cleanedCount : Int) }

/-- The `Stats` snapshot structure of pool.go. -/
structure PoolStats where
  ActiveCount : Int
  IdleCount : Int
  TotalCount : Int
  IdleTimeout : Int
  MaxIdleConns : Int
  MaxActive : Int
deriving DecidableEq, Repr

/-- Model of `ConnPool.Stats` (pool.go lines 263-280): the idle count is
the sum of the per-key list lengths and the total is computed as
`p.active + idleCount`. -/
def poolStats (p : Pool) : PoolStats :=
  let idleCount : Int := p.idle.foldl (fun acc kv => acc + (kv.2.length : Int)) 0
  { ActiveCount := p.active
    IdleCount := idleCount
    TotalCount := p.active + idleCount
    IdleTimeout := p.idleTimeout
    MaxIdleConns := p.maxIdle
    MaxActive := p.maxActive }

/-- The pooled-connection wrapper `poolConn` of pool.go: the wrapped
conn, its pool key parts, and whether the `sync.Once` release guard has
already fired. -/
structure PoolConnW where
  conn : PConn
  network : String
  addr : String
  released : Bool
deriving DecidableEq, Repr

/-- What a call to the wrapper Close did to the underlying socket:
returned it to the idle list, closed it, or nothing (the release had
already run). -/
inductive CloseEffect where
  | pooled
  | closedSock
  | noop
deriving DecidableEq, Repr

/-- Model of `poolConn.Close` (pool.go lines 241-250): under a
`sync.Once` guard, probe the connection; if alive give it to `Put`
(which may still close it when the per-key idle list is full), otherwise
close it. Later calls do nothing. The Go method always returns nil. -/
def poolConnClose (now : Int) (w : PoolConnW) (p : Pool) (ms : Option MC) :
    PoolConnW × Pool × CloseEffect × Option MC :=
  if w.released then (w, p, .noop, ms)
  else if w.conn.alive then
    let r := poolPut now p w.network w.addr w.conn ms
    ({ w with released := true }, r.1, if r.2.1 then .closedSock else .pooled, r.2.2)
  else
    ({ w with released := true }, p, .closedSock, ms)

/-- The error values of the GoHookProxy errors package that the dial
layer can surface, plus markers for raw I/O errors returned unwrapped
(`return nil, err`). The three SOCKS4-specific constructors
(`ErrSOCKS4RequestRejected`, `ErrSOCKS4IdentdFailed`,
`ErrSOCKS4IdentdMismatch`) are declared in the errors package; whether
the dialer uses them is settled by the theorems. `wrapped msg base`
models `errors.WrapError(base, msg)`. -/
inductive PErr where
  | unsupportedProxy
  | ctxCanceled
  | ctxDeadlineExceeded
  | connectionTimeout
  | proxyDialFailed
  | tlsConfigBase
  | tlsHandshake
  | certValidation
  | proxyNegotiation
  | proxyProtocol
  | httpProxyAuth
  | socksVersionNotSupported
  | socksNetworkNotSupported
  | socksAddressTypeNotSupported
  | socksProxyUnreachable
  | socksConnectFailed
  | socksAuthFailed
  | socks4RequestRejected
  | socks4IdentdFailed
  | socks4IdentdMismatch
  | netDialErr
  | ioReadFailed
  | ioTimeout
  | wrapped (msg : String) (base : PErr)
deriving DecidableEq, Repr

/-- Context state at the time of a dial: live, already canceled, or with
an already-exceeded deadline. -/
inductive CtxState where
  | live
  | canceled
  | deadlineExceeded
deriving DecidableEq, Repr

/-- Credentials of the HTTP proxy configuration that the CONNECT dialers
read. -/
structure HTTPConfig where
  user : String
  pass : String
deriving DecidableEq, Repr

/-- Environment of one HTTP-family dial: whether the TCP connect to the
intermediary succeeds, whether the TLS handshake succeeds, whether the
CONNECT request write and the response parse succeed, and the parsed
response status. The strings are the corresponding Go error or status
texts. -/
structure HttpWorld where
  connectOk : Bool
  connectErrMsg : String
  tlsOk : Bool
  tlsErrMsg : String
  writeOk : Bool
  writeErrMsg : String
  respReadOk : Bool
  respErrMsg : String
  respStatus : Nat
  respStatusText : String
deriving DecidableEq, Repr

/-- The kinds of connection value an HTTP-family dial can return. -/
inductive HConn where
  | tunnel
  | tlsTunnel
  | h2Stream
deriving DecidableEq, Repr

/-- Model of `sendConnectRequest` (http.go lines 258-289): write the
CONNECT request, parse the response, then: status 407 yields the bare
`ErrHTTPProxyAuth`; any other non-200 yields `ErrProxyProtocol` wrapped
with the status text; 200 succeeds. -/
def sendConnectRequest (w : HttpWorld) : Except PErr Unit :=
  if !w.writeOk then .error (.wrapped w.writeErrMsg .proxyNegotiation)
  else if !w.respReadOk then .error (.wrapped w.respErrMsg .proxyNegotiation)
  else if w.respStatus = 407 then .error .httpProxyAuth
  else if w.respStatus ≠ 200 then .error (.wrapped w.respStatusText .proxyProtocol)
  else .ok ()

/-- Model of `dialHTTP` (http.go lines 88-104): TCP connect to the
intermediary (the boolean records that a socket connect was attempted),
then the CONNECT exchange. A failed connect maps to
`ErrConnectionTimeout` when the context deadline has been exceeded and to
a wrapped `ErrProxyDialFailed` otherwise. -/
def dialHTTP (ctx : CtxState) (w : HttpWorld) : Except PErr HConn × Bool :=
  if !w.connectOk then
    (if ctx = .deadlineExceeded then .error .connectionTimeout
     else .error (.wrapped w.connectErrMsg .proxyDialFailed), true)
  else
    match sendConnectRequest w with
    | .error e => (.error e, true)
    | .ok _ => (.ok .tunnel, true)

/-- Model of `dialHTTPS` (http.go lines 107-144): missing TLS config is
rejected before any connect; then TCP connect, TLS handshake, CONNECT
exchange. -/
def dialHTTPS (tlsConfigSet : Bool) (ctx : CtxState) (w : HttpWorld) :
    Except PErr HConn × Bool :=
  if !tlsConfigSet then
    (.error (.wrapped "TLS configuration is missing" .tlsConfigBase), false)
  else if !w.connectOk then
    (if ctx = .deadlineExceeded then .error .connectionTimeout
     else .error (.wrapped w.connectErrMsg .proxyDialFailed), true)
  else if !w.tlsOk then
    (.error (.wrapped w.tlsErrMsg .tlsHandshake), true)
  else
    match sendConnectRequest w with
    | .error e => (.error e, true)
    | .ok _ => (.ok .tlsTunnel, true)

/-- Model of `dialHTTP2` (http.go lines 201-255): the connect and TLS
handshake happen inside `client.Do` via the transport DialTLS callback,
and any error there surfaces wrapped as `ErrProxyNegotiation`; a non-200
response status (407 included) yields `ErrProxyProtocol` wrapped with the
status text; 200 yields the stream adapter. -/
def dialHTTP2 (w : HttpWorld) : Except PErr HConn × Bool :=
  if !w.connectOk then
    (.error (.wrapped w.connectErrMsg .proxyNegotiation), true)
  else if !w.tlsOk then
    (.error (.wrapped w.tlsErrMsg .proxyNegotiation), true)
  else if w.respStatus ≠ 200 then
    (.error (.wrapped w.respStatusText .proxyProtocol), true)
  else
    (.ok .h2Stream, true)

/-- The HTTP-family proxy variants handled by `HTTPProxyDialer`. -/
inductive HProxyType where
  | http
  | https
  | http2
deriving DecidableEq, Repr

/-- Model of `HTTPProxyDialer.DialContext` (http.go lines 38-85): record
a connection into the metrics, reject non-TCP networks, check the
context (an already-done context returns the cancellation or
deadline-exceeded error before any connect), dispatch on the variant,
and record failure or success metrics. The middle boolean of the result
tells whether a socket connect to the intermediary was attempted. -/
def httpDialerDialContext (pt : HProxyType) (tlsConfigSet : Bool) (ctx : CtxState)
    (network : String) (w : HttpWorld) (ms : Option MC) :
    Except PErr HConn × Bool × Option MC :=
  let ms0 := withMC (fun m => MC.recordConnection m 0) ms
  if network ≠ "tcp" ∧ network ≠ "tcp4" ∧ network ≠ "tcp6" then
    (.error (.wrapped ("unsupported network type: " ++ network) .unsupportedProxy),
     false, ms0)
  else
    match ctx with
    | .canceled => (.error .ctxCanceled, false, ms0)
    | .deadlineExceeded => (.error .ctxDeadlineExceeded, false, ms0)
    | .live =>
      let r :=
        match pt with
        | .http => dialHTTP .live w
        | .https => dialHTTPS tlsConfigSet .live w
        | .http2 => dialHTTP2 w
      match r.1 with
      | .error e => (.error e, r.2, withMC MC.recordFailure ms0)
      | .ok c =>
        (.ok c, r.2, withMC (fun m => MC.recordConnection (MC.incActive m) 0) ms0)

/-- The SOCKS proxy configuration fields the dialers read. -/
structure SOCKSConfig where
  user : String
  pass : String
  enableUDP : Bool
deriving DecidableEq, Repr

/-- Result of `net.ParseIP` on the target host as the SOCKS dialers use
it: a four-byte IPv4 (`To4() != nil`), a sixteen-byte IPv6, or nil
(the host is a name). -/
inductive ParsedIP where
  | v4 (b : List Nat)
  | v6 (b : List Nat)
  | hostname
deriving DecidableEq, Repr

/-- Go byte truncation. -/
def byteOf (n : Nat) : Nat := n % 256

/-- Bytes of a Go string (`[]byte(s)`). -/
def strBytes (s : String) : List Nat :=
  s.toUTF8.toList.map (fun b => b.toNat)

/-- SOCKS4 destination port encoding:
`byte(portNum >> 8), byte(portNum & 0xff)`. -/
def socks4PortBytes (port : Nat) : List Nat :=
  [byteOf (port / 256), port % 256]

/-- SOCKS5 destination port encoding:
`binary.BigEndian.PutUint16(portBytes, uint16(portNum))`. -/
def socks5PortBytes (port : Nat) : List Nat :=
  let pt := port % 65536
  [pt / 256, pt % 256]

/-- The SOCKS4/4a request frame built by `dialSocks4` (http.go lines
613-644): version, CONNECT command, port, then the IPv4 address (IPv6
targets are rejected) or the 0.0.0.1 sentinel, the optional user id, a
NUL, and for SOCKS4a the hostname plus a NUL. -/
def socks4Request (cfg : SOCKSConfig) (host : List Nat) (ip : ParsedIP) (port : Nat) :
    Except PErr (List Nat) :=
  let base := [0x04, 0x01] ++ socks4PortBytes port
  match ip with
  | .v6 _ => .error .socksAddressTypeNotSupported
  | .v4 b =>
    let r1 := base ++ b
    let r2 := if cfg.user ≠ "" then r1 ++ strBytes cfg.user else r1
    .ok (r2 ++ [0x00])
  | .hostname =>
    let r1 := base ++ [0, 0, 0, 1]
    let r2 := if cfg.user ≠ "" then r1 ++ strBytes cfg.user else r1
    .ok (r2 ++ [0x00] ++ host ++ [0x00])

/-- Model of `io.ReadFull` against the server script: take `n` bytes or
fail when the script is shorter. -/
def readFull (n : Nat) (s : List Nat) : Option (List Nat × List Nat) :=
  if s.length < n then none else some (s.take n, s.drop n)

/-- Model of `dialSocks4` (http.go lines 593-675). The host and port are
the stdlib `SplitHostPort`/`Atoi` results. The connect to the
intermediary is attempted unconditionally (the returned boolean); there
is no context check before it — the only use of the context is
`SetDeadline`, so a context whose deadline already passed makes the
first write fail with a raw timeout error that is returned as-is. The
eight-byte reply is then classified on byte 1: 0x5A granted, 0x5B
`ErrSOCKSConnectFailed`, 0x5C and 0x5D both `ErrSOCKSAuthFailed`, and
anything else `ErrSOCKSConnectFailed`. -/
def dialSocks4 (cfg : SOCKSConfig) (host : List Nat) (ip : ParsedIP) (port : Nat)
    (ctx : CtxState) (connectOk : Bool) (server : List Nat) :
    Except PErr Unit × List Nat × Bool :=
  if !connectOk then (.error .socksProxyUnreachable, [], true)
  else if ctx = .deadlineExceeded then (.error .ioTimeout, [], true)
  else
    match socks4Request cfg host ip port with
    | .error e => (.error e, [], true)
    | .ok req =>
      match readFull 8 server with
      | none => (.error .ioReadFailed, req, true)
      | some r =>
        let code := r.1.getD 1 0
        if code = 0x5A then (.ok (), req, true)
        else if code = 0x5B then (.error .socksConnectFailed, req, true)
        else if code = 0x5C then (.error .socksAuthFailed, req, true)
        else if code = 0x5D then (.error .socksAuthFailed, req, true)
        else (.error .socksConnectFailed, req, true)

/-- The SOCKS5 address block of the request frame (http.go lines
733-744): domain names get type 0x03 with a length prefix, IPv4 type
0x01, IPv6 type 0x04. -/
def socks5AddrBytes (host : List Nat) (ip : ParsedIP) : List Nat :=
  match ip with
  | .hostname => 0x03 :: byteOf host.length :: host
  | .v4 b => 0x01 :: b
  | .v6 b => 0x04 :: b

/-- The SOCKS5 CONNECT request frame: version 0x05, command 0x01,
reserved 0x00, address block, two big-endian port bytes. -/
def socks5Request (host : List Nat) (ip : ParsedIP) (port : Nat) : List Nat :=
  [0x05, 0x01, 0x00] ++ socks5AddrBytes host ip ++ socks5PortBytes port

/-- Model of `authenticateSocks5` (http.go lines 788-811): send the
username/password sub-negotiation frame and require a 0x00 status in the
two-byte reply. Returns the result, the bytes written, and the remaining
server script. -/
def authSubNeg (cfg : SOCKSConfig) (server : List Nat) :
    Except PErr Unit × List Nat × List Nat :=
  let u := strBytes cfg.user
  let pw := strBytes cfg.pass
  let req := [0x01, byteOf u.length] ++ u ++ [byteOf pw.length] ++ pw
  match readFull 2 server with
  | none => (.error .ioReadFailed, req, [])
  | some r =>
    if r.1.getD 1 0 ≠ 0x00 then (.error .socksAuthFailed, req, r.2)
    else (.ok (), req, r.2)

/-- The request-and-reply phase of `dialSocks5` after method
negotiation (http.go lines 731-785): write the CONNECT frame, read the
four-byte reply header, require reply code 0x00, then consume the bound
address and port whose length depends on the reply address type (an
unknown address type consumes nothing and is accepted). -/
def socks5AfterAuth (host : List Nat) (ip : ParsedIP) (port : Nat)
    (written : List Nat) (server : List Nat) : Except PErr Unit × List Nat :=
  let w := written ++ socks5Request host ip port
  match readFull 4 server with
  | none => (.error .ioReadFailed, w)
  | some r =>
    if r.1.getD 1 0 ≠ 0x00 then (.error .socksConnectFailed, w)
    else
      match r.1.getD 3 0 with
      | 0x01 => if r.2.length < 6 then (.error .ioReadFailed, w) else (.ok (), w)
      | 0x03 =>
        match readFull 1 r.2 with
        | none => (.error .ioReadFailed, w)
        | some l =>
          if l.2.length < l.1.getD 0 0 + 2 then (.error .ioReadFailed, w)
          else (.ok (), w)
      | 0x04 => if r.2.length < 18 then (.error .ioReadFailed, w) else (.ok (), w)
      | _ => (.ok (), w)

/-- Model of `dialSocks5` (http.go lines 677-786). The connect to the
intermediary happens before any context check (the returned boolean
records the attempt; an already-expired context deadline only makes the
first write fail with a raw timeout error). Method negotiation offers
username/password only when both credentials are set, otherwise
no-auth; the server answer must carry version 0x05; the sub-negotiation
runs only when the server selects 0x02; then the CONNECT frame is sent
and the reply handled by `socks5AfterAuth`. -/
def dialSocks5 (cfg : SOCKSConfig) (host : List Nat) (ip : ParsedIP) (port : Nat)
    (ctx : CtxState) (connectOk : Bool) (server : List Nat) :
    Except PErr Unit × List Nat × Bool :=
  if !connectOk then (.error .socksProxyUnreachable, [], true)
  else if ctx = .deadlineExceeded then (.error .ioTimeout, [], true)
  else
    let methods : List Nat :=
      if cfg.user ≠ "" ∧ cfg.pass ≠ "" then [0x02] else [0x00]
    let authReq := [0x05, byteOf methods.length] ++ methods
    match readFull 2 server with
    | none => (.error .ioReadFailed, authReq, true)
    | some r =>
      if r.1.getD 0 0 ≠ 0x05 then (.error .socksVersionNotSupported, authReq, true)
      else if r.1.getD 1 0 = 0x02 then
        match authSubNeg cfg r.2 with
        | (.error e, w2, _) => (.error e, authReq ++ w2, true)
        | (.ok _, w2, s2) =>
          let r2 := socks5AfterAuth host ip port (authReq ++ w2) s2
          (r2.1, r2.2, true)
      else
        let r2 := socks5AfterAuth host ip port authReq r.2
        (r2.1, r2.2, true)

/-- Model of `dialUDPSocks5` (http.go lines 837-919): TCP connect to the
intermediary (a raw dial error is returned unwrapped), the
username/password sub-negotiation run unconditionally, the UDP ASSOCIATE
frame with a zero IPv4 address, the four-byte reply requiring code 0x00,
and the relay address whose type must be IPv4 or IPv6. -/
def dialUDPSocks5 (cfg : SOCKSConfig) (connectOk : Bool) (server : List Nat) :
    Except PErr Unit × List Nat × Bool :=
  if !connectOk then (.error .netDialErr, [], true)
  else
    match authSubNeg cfg server with
    | (.error e, w, _) => (.error e, w, true)
    | (.ok _, w, s1) =>
      let req := [0x05, 0x03, 0x00, 0x01, 0, 0, 0, 0, 0, 0]
      let w2 := w ++ req
      match readFull 4 s1 with
      | none => (.error .ioReadFailed, w2, true)
      | some r =>
        if r.1.getD 1 0 ≠ 0x00 then (.error .socksConnectFailed, w2, true)
        else
          match r.1.getD 3 0 with
          | 0x01 =>
            if r.2.length < 6 then (.error .ioReadFailed, w2, true)
            else (.ok (), w2, true)
          | 0x04 =>
            if r.2.length < 18 then (.error .ioReadFailed, w2, true)
            else (.ok (), w2, true)
          | _ => (.error .socksAddressTypeNotSupported, w2, true)

/-- Model of `SocksDialer.validateNetwork` (http.go lines 568-580). -/
def socksValidateNetwork (cfg : SOCKSConfig) (network : String) : Except PErr Unit :=
  if network = "tcp" ∨ network = "tcp4" ∨ network = "tcp6" then .ok ()
  else if network = "udp" ∨ network = "udp4" ∨ network = "udp6" then
    if !cfg.enableUDP then .error .socksNetworkNotSupported else .ok ()
  else .error .socksNetworkNotSupported

/-- The SOCKS proxy variants handled by `SocksDialer`. -/
inductive SProxyType where
  | socks4
  | socks5
deriving DecidableEq, Repr

/-- Model of `SocksDialer.DialContext` (http.go lines 507-566): record a
connection into the metrics, validate the network, route UDP networks to
the UDP-associate path (SOCKS5 only) and TCP networks to
`dialSocks4`/`dialSocks5`, recording failure or success metrics. The
result carries the dial outcome, the bytes written to the intermediary,
whether a socket connect to the intermediary was attempted, and the
metrics sink. Note there is no context check anywhere on this path
before the connect. -/
def socksDialContext (pt : SProxyType) (cfg : SOCKSConfig) (ctx : CtxState)
    (network : String) (host : List Nat) (ip : ParsedIP) (port : Nat)
    (connectOk : Bool) (server : List Nat) (ms : Option MC) :
    Except PErr Unit × List Nat × Bool × Option MC :=
  let ms0 := withMC (fun m => MC.recordConnection m 0) ms
  match socksValidateNetwork cfg network with
  | .error e => (.error e, [], false, withMC MC.recordFailure ms0)
  | .ok _ =>
    if network = "udp" ∨ network = "udp4" ∨ network = "udp6" then
      if pt ≠ SProxyType.socks5 then
        (.error .socksNetworkNotSupported, [], false, ms0)
      else
        let r := dialUDPSocks5 cfg connectOk server
        match r.1 with
        | .error e => (.error e, r.2.1, r.2.2, withMC MC.recordFailure ms0)
        | .ok _ =>
          (.ok (), r.2.1, r.2.2,
           withMC (fun m => MC.recordConnection (MC.incActive m) 0) ms0)
    else
      let r :=
        match pt with
        | .socks4 => dialSocks4 cfg host ip port ctx connectOk server
        | .socks5 => dialSocks5 cfg host ip port ctx connectOk server
      match r.1 with
      | .error e => (.error e, r.2.1, r.2.2, withMC MC.recordFailure ms0)
      | .ok _ =>
        (.ok (), r.2.1, r.2.2,
         withMC (fun m => MC.recordConnection (MC.incActive m) 0) ms0)

/-- Model of `ProxyManager.DialContext` (proxy.go lines 157-204): record
the protocol, consult the pool, and when the pool yields a reusable
connection wrap and return it; on a pool error OR a pool miss fall
through to the configured dialer (`err == nil && conn != nil`), wrapping
a fresh connection the same way. A missing dialer yields
`ErrUnsupportedProxy`. The fresh dial is abstracted as its result. -/
def managerDialContext (now : Int) (p : Pool) (network addr : String)
    (dialer : Option (Except PErr PConn)) (ms : Option MC) :
    Except PErr PoolConnW × Pool × Option MC :=
  let ms0 := withMC MC.recordProtocol ms
  let r := poolGet now p network addr ms0
  match r.1 with
  | .reused c => (.ok ⟨c, network, addr, false⟩, r.2.1, r.2.2.2)
  | _ =>
    match dialer with
    | none => (.error .unsupportedProxy, r.2.1, r.2.2.2)
    | some fresh =>
      match fresh with
      | .error e => (.error e, r.2.1, withMC MC.recordFailure r.2.2.2)
      | .ok c =>
        (.ok ⟨c, network, addr, false⟩, r.2.1,
         withMC (fun m => MC.recordLatency m 0) r.2.2.2)

/-! ## Theorems -/

/-- C10: when the one-byte probe read succeeds because the peer already
sent data, the connection is classified alive and that byte is discarded
(the bytes still deliverable to the next user are exactly the rest); a
timeout classifies it alive with the read deadline cleared; end-of-file
or any other read error classifies it dead. -/
theorem liveness_probe_classification (b : Nat) (rest : List Nat) (dl : Bool) :
    (isConnAlive ⟨.buffered b rest, dl⟩).1 = true ∧
    pendingBytes (isConnAlive ⟨.buffered b rest, dl⟩).2 = rest ∧
    (isConnAlive ⟨.buffered b rest, dl⟩).2.deadlineSet = false ∧
    (isConnAlive ⟨.silent, dl⟩).1 = true ∧
    (isConnAlive ⟨.silent, dl⟩).2.deadlineSet = false ∧
    (isConnAlive ⟨.closedPeer, dl⟩).1 = false ∧
    (isConnAlive ⟨.broken, dl⟩).1 = false := by
  cases rest <;>
    simp [isConnAlive, connReadByte, pendingBytes]

/-- C1: with no credentials configured the SOCKS5 dialer offers no-auth,
and after the server selects it the bytes written are the method frame
`05 01 00` followed by the request frame, which is exactly
`05 01 00 <ATYP> <ADDR> <PORT-hi> <PORT-lo>`; the ten-byte server reply
`05 00 00 01 00 00 00 00 00 00` is accepted as success. -/
theorem socks5_noauth_connect_exact_frame (cfg : SOCKSConfig) (host : List Nat)
    (ip : ParsedIP) (port : Nat) (h : cfg.user = "") :
    dialSocks5 cfg host ip port .live true
        ([0x05, 0x00] ++ [0x05, 0x00, 0x00, 0x01, 0, 0, 0, 0, 0, 0])
      = (.ok (), [0x05, 0x01, 0x00] ++ socks5Request host ip port, true) ∧
    socks5Request host ip port
      = [0x05, 0x01, 0x00] ++ socks5AddrBytes host ip ++ socks5PortBytes port := by
  obtain ⟨u, pw, en⟩ := cfg
  simp only at h
  subst h
  exact ⟨rfl, rfl⟩

/-- Witness for C1 at a concrete configuration and target. -/
theorem socks5_noauth_connect_exact_frame_inst :
    dialSocks5 ⟨"", "", false⟩ [] (.v4 [93, 184, 216, 34]) 80 .live true
        ([0x05, 0x00] ++ [0x05, 0x00, 0x00, 0x01, 0, 0, 0, 0, 0, 0])
      = (.ok (), [0x05, 0x01, 0x00] ++ socks5Request [] (.v4 [93, 184, 216, 34]) 80,
         true) ∧
    socks5Request [] (.v4 [93, 184, 216, 34]) 80
      = [0x05, 0x01, 0x00] ++ socks5AddrBytes [] (.v4 [93, 184, 216, 34])
          ++ socks5PortBytes 80 :=
  socks5_noauth_connect_exact_frame ⟨"", "", false⟩ [] (.v4 [93, 184, 216, 34]) 80 rfl

/-- C4: evaluation of the SOCKS4 dialer at the claimed inputs. The
request frame for 93.184.216.34:80 with no user id is exactly
`04 01 00 50 5D B8 D8 22 00` and a reply with byte 1 = 0x5A is accepted,
but the reply mapping diverges from the claim: 0x5B yields the generic
`ErrSOCKSConnectFailed` (not the dedicated `ErrSOCKS4RequestRejected`),
and 0x5C and 0x5D both yield the same `ErrSOCKSAuthFailed` instead of
distinct identd-unreachable and identd-mismatch errors. -/
theorem socks4_frame_and_reply_mapping :
    socks4Request ⟨"", "", false⟩ [] (.v4 [93, 184, 216, 34]) 80
      = .ok [0x04, 0x01, 0x00, 0x50, 0x5D, 0xB8, 0xD8, 0x22, 0x00] ∧
    dialSocks4 ⟨"", "", false⟩ [] (.v4 [93, 184, 216, 34]) 80 .live true
        [0x00, 0x5A, 0, 0, 0, 0, 0, 0]
      = (.ok (), [0x04, 0x01, 0x00, 0x50, 0x5D, 0xB8, 0xD8, 0x22, 0x00], true) ∧
    (dialSocks4 ⟨"", "", false⟩ [] (.v4 [93, 184, 216, 34]) 80 .live true
        [0x00, 0x5B, 0, 0, 0, 0, 0, 0]).1 = .error .socksConnectFailed ∧
    (dialSocks4 ⟨"", "", false⟩ [] (.v4 [93, 184, 216, 34]) 80 .live true
        [0x00, 0x5C, 0, 0, 0, 0, 0, 0]).1 = .error .socksAuthFailed ∧
    (dialSocks4 ⟨"", "", false⟩ [] (.v4 [93, 184, 216, 34]) 80 .live true
        [0x00, 0x5D, 0, 0, 0, 0, 0, 0]).1 = .error .socksAuthFailed :=
  ⟨rfl, rfl, rfl, rfl, rfl⟩

/-- C2 (amended): the pool itself enforces the ceiling — when the active
counter has reached `maxActive`, `Get` fails fast with the limit error,
hands out nothing, and leaves the pool unchanged. -/
theorem pool_get_limit_fails_fast (now : Int) (p : Pool) (network addr : String)
    (ms : Option MC) (h : p.active ≥ p.maxActive) :
    poolGet now p network addr ms = (.limitErr, p, [], withMC MC.recordErrorType ms) := by
  unfold poolGet
  rw [if_pos h]

/-- Witness for C2 at a concrete full pool. -/
theorem pool_get_limit_fails_fast_inst :
    poolGet 0 ⟨[], 5, 2, 5, 100⟩ "tcp" "example.com:443" none
      = (.limitErr, ⟨[], 5, 2, 5, 100⟩, [], none) :=
  pool_get_limit_fails_fast 0 ⟨[], 5, 2, 5, 100⟩ "tcp" "example.com:443" none
    (by decide)

/-- Counterexample to C2 as stated: with the pool at its ceiling
(active = maxActive = 5), `ProxyManager.DialContext` does not fail — it
ignores the pool error and returns a freshly dialed connection, while
the pool state still records 5 connections, so a sixth connection now
exists beyond the configured limit. -/
theorem manager_dial_succeeds_beyond_limit :
    (managerDialContext 0 ⟨[], 5, 2, 5, 100⟩ "tcp" "example.com:443"
        (some (.ok ⟨7, true⟩)) none).1
      = .ok ⟨⟨7, true⟩, "tcp", "example.com:443", false⟩ ∧
    (managerDialContext 0 ⟨[], 5, 2, 5, 100⟩ "tcp" "example.com:443"
        (some (.ok ⟨7, true⟩)) none).2.1.active = 5 :=
  ⟨rfl, rfl⟩

/-- C5: releasing a wrapped pooled connection runs the probe-based
decision exactly once — the first call either pools or closes the
underlying socket, and a second call is a no-op that changes nothing. -/
theorem pool_conn_close_release_once (now now2 : Int) (w : PoolConnW) (p : Pool)
    (ms : Option MC) (h : w.released = false) :
    ((poolConnClose now w p ms).2.2.1 = CloseEffect.pooled ∨
     (poolConnClose now w p ms).2.2.1 = CloseEffect.closedSock) ∧
    (poolConnClose now w p ms).1.released = true ∧
    poolConnClose now2 (poolConnClose now w p ms).1 (poolConnClose now w p ms).2.1
        (poolConnClose now w p ms).2.2.2
      = ((poolConnClose now w p ms).1, (poolConnClose now w p ms).2.1,
         CloseEffect.noop, (poolConnClose now w p ms).2.2.2) := by
  simp only [poolConnClose, h, Bool.false_eq_true, if_false]
  by_cases hal : w.conn.alive = true
  · simp only [hal, if_true]
    cases hb : (poolPut now p w.network w.addr w.conn ms).2.1 <;>
      simp [hb, poolConnClose]
  · rw [Bool.not_eq_true] at hal
    simp [hal, poolConnClose]

/-- Witness for C5 at a concrete wrapper and pool. -/
theorem pool_conn_close_release_once_inst :
    ((poolConnClose 0 ⟨⟨1, true⟩, "tcp", "a", false⟩ ⟨[], 1, 2, 5, 100⟩ none).2.2.1
        = CloseEffect.pooled ∨
     (poolConnClose 0 ⟨⟨1, true⟩, "tcp", "a", false⟩ ⟨[], 1, 2, 5, 100⟩ none).2.2.1
        = CloseEffect.closedSock) ∧
    (poolConnClose 0 ⟨⟨1, true⟩, "tcp", "a", false⟩ ⟨[], 1, 2, 5, 100⟩
        none).1.released = true ∧
    poolConnClose 7
        (poolConnClose 0 ⟨⟨1, true⟩, "tcp", "a", false⟩ ⟨[], 1, 2, 5, 100⟩ none).1
        (poolConnClose 0 ⟨⟨1, true⟩, "tcp", "a", false⟩ ⟨[], 1, 2, 5, 100⟩ none).2.1
        (poolConnClose 0 ⟨⟨1, true⟩, "tcp", "a", false⟩ ⟨[], 1, 2, 5, 100⟩
          none).2.2.2
      = ((poolConnClose 0 ⟨⟨1, true⟩, "tcp", "a", false⟩ ⟨[], 1, 2, 5, 100⟩ none).1,
         (poolConnClose 0 ⟨⟨1, true⟩, "tcp", "a", false⟩ ⟨[], 1, 2, 5, 100⟩
           none).2.1,
         CloseEffect.noop,
         (poolConnClose 0 ⟨⟨1, true⟩, "tcp", "a", false⟩ ⟨[], 1, 2, 5, 100⟩
           none).2.2.2) :=
  pool_conn_close_release_once 0 7 ⟨⟨1, true⟩, "tcp", "a", false⟩ ⟨[], 1, 2, 5, 100⟩
    none rfl

/-- Any entry the Get scan hands out sits at an index of the original
idle list, is unexpired at scan time, and passes the liveness probe. -/
theorem getScan_reused_spec (now : Int) (orig : List Entry) :
    ∀ (i : Nat) (cur : List Entry) (closed : List PConn) (e : Entry)
      (l : List Entry) (cl : List PConn),
      getScan now orig i cur closed = (some e, l, cl) →
      ∃ j, j < i ∧ orig.get? j = some e ∧ ¬ now > e.expiryTime ∧
        e.conn.alive = true := by
  intro i
  induction i with
  | zero =>
    intro cur closed e l cl hEq
    simp [getScan] at hEq
  | succ n ih =>
    intro cur closed e l cl hEq
    simp only [getScan] at hEq
    cases hg : orig.get? n with
    | none => rw [hg] at hEq; simp at hEq
    | some e0 =>
      rw [hg] at hEq
      dsimp only at hEq
      by_cases hexp : now > e0.expiryTime
      · rw [if_pos hexp] at hEq
        obtain ⟨j, hj, h2⟩ := ih _ _ _ _ _ hEq
        exact ⟨j, Nat.lt_succ_of_lt hj, h2⟩
      · rw [if_neg hexp] at hEq
        by_cases hal : e0.conn.alive = true
        · rw [if_pos hal] at hEq
          simp only [Prod.mk.injEq, Option.some.injEq] at hEq
          obtain ⟨he, -, -⟩ := hEq
          subst he
          exact ⟨n, Nat.lt_succ_self n, hg, hexp, hal⟩
        · rw [if_neg hal] at hEq
          obtain ⟨j, hj, h2⟩ := ih _ _ _ _ _ hEq
          exact ⟨j, Nat.lt_succ_of_lt hj, h2⟩

/-- C3 (amended): whenever `Get` hands out a connection, that connection
comes from an entry of the idle list for the key that is unexpired at
scan time and passes the liveness probe — an expired entry is never
handed out. -/
theorem pool_get_never_hands_out_expired (now : Int) (p : Pool) (network addr : String)
    (ms : Option MC) (c : PConn) (p2 : Pool) (cl : List PConn) (ms2 : Option MC)
    (h : poolGet now p network addr ms = (.reused c, p2, cl, ms2)) :
    ∃ e, e ∈ lookupIdle p.idle (connKey network addr) ∧ e.conn = c ∧
      ¬ now > e.expiryTime ∧ e.conn.alive = true := by
  simp only [poolGet] at h
  by_cases hlim : p.active ≥ p.maxActive
  · rw [if_pos hlim] at h
    simp at h
  · rw [if_neg hlim] at h
    by_cases hlen : (lookupIdle p.idle (connKey network addr)).length > 0
    · rw [if_pos hlen] at h
      rcases hscan : getScan now (lookupIdle p.idle (connKey network addr))
          (lookupIdle p.idle (connKey network addr)).length
          (lookupIdle p.idle (connKey network addr)) [] with ⟨o, l, cl2⟩
      rw [hscan] at h
      cases o with
      | none => simp at h
      | some e =>
        simp only [Prod.mk.injEq, GetRes.reused.injEq] at h
        obtain ⟨hce, -, -, -⟩ := h
        obtain ⟨j, hj, hget, hexp, hal⟩ :=
          getScan_reused_spec now (lookupIdle p.idle (connKey network addr)) _ _ _ _ _ _
            hscan
        exact ⟨e, List.get?_mem hget, hce, hexp, hal⟩
    · rw [if_neg hlen] at h
      simp at h

/-- Witness for C3 at a concrete pool with one live idle entry. -/
theorem pool_get_never_hands_out_expired_inst :
    ∃ e, e ∈ lookupIdle [("tcp:a", [⟨⟨1, true⟩, 10⟩])] (connKey "tcp" "a") ∧
      e.conn = ⟨1, true⟩ ∧ ¬ (0 : Int) > e.expiryTime ∧ e.conn.alive = true :=
  pool_get_never_hands_out_expired 0 ⟨[("tcp:a", [⟨⟨1, true⟩, 10⟩])], 0, 2, 5, 100⟩
    "tcp" "a" none ⟨1, true⟩ ⟨[("tcp:a", [])], 2, 2, 5, 100⟩ [] none rfl

/-- Counterexample to C3 as stated: with idle list
`[⟨conn 1, expiry 10⟩, ⟨conn 2, expiry -5⟩]` at time 0, the scan closes
the expired entry 2, then hands out entry 1 — but the success path
rebuilds the idle list from the stale slice, so the closed expired entry
2 is still in the idle list after the call, contradicting "expired
entries encountered during the scan are removed". -/
theorem pool_get_resurrects_closed_expired_entry :
    (poolGet 0 ⟨[("tcp:a", [⟨⟨1, true⟩, 10⟩, ⟨⟨2, true⟩, -5⟩])], 0, 5, 10, 100⟩
        "tcp" "a" none).1 = .reused ⟨1, true⟩ ∧
    (poolGet 0 ⟨[("tcp:a", [⟨⟨1, true⟩, 10⟩, ⟨⟨2, true⟩, -5⟩])], 0, 5, 10, 100⟩
        "tcp" "a" none).2.2.1 = [⟨2, true⟩] ∧
    lookupIdle (poolGet 0 ⟨[("tcp:a", [⟨⟨1, true⟩, 10⟩, ⟨⟨2, true⟩, -5⟩])],
        0, 5, 10, 100⟩ "tcp" "a" none).2.1.idle "tcp:a" = [⟨⟨2, true⟩, -5⟩] :=
  ⟨rfl, rfl, rfl⟩

/-- C6 (amended): the HTTP-family dialer checks the context before any
socket connect — an already-canceled context yields `ErrContextCanceled`
and an already-exceeded deadline yields `ErrContextDeadlineExceeded`,
in both cases without attempting a connect to the intermediary. -/
theorem http_dialers_honor_precanceled_context (pt : HProxyType) (tlsSet : Bool)
    (network : String) (w : HttpWorld) (ms : Option MC)
    (hnet : network = "tcp" ∨ network = "tcp4" ∨ network = "tcp6") :
    (httpDialerDialContext pt tlsSet .canceled network w ms).1 = .error .ctxCanceled ∧
    (httpDialerDialContext pt tlsSet .canceled network w ms).2.1 = false ∧
    (httpDialerDialContext pt tlsSet .deadlineExceeded network w ms).1
      = .error .ctxDeadlineExceeded ∧
    (httpDialerDialContext pt tlsSet .deadlineExceeded network w ms).2.1 = false := by
  rcases hnet with h | h | h <;> subst h <;> exact ⟨rfl, rfl, rfl, rfl⟩

/-- Witness for C6 at a concrete dial environment. -/
theorem http_dialers_honor_precanceled_context_inst :
    (httpDialerDialContext .http true .canceled "tcp"
        ⟨true, "", true, "", true, "", true, "", 200, "200 OK"⟩ none).1
      = .error .ctxCanceled ∧
    (httpDialerDialContext .http true .canceled "tcp"
        ⟨true, "", true, "", true, "", true, "", 200, "200 OK"⟩ none).2.1 = false ∧
    (httpDialerDialContext .http true .deadlineExceeded "tcp"
        ⟨true, "", true, "", true, "", true, "", 200, "200 OK"⟩ none).1
      = .error .ctxDeadlineExceeded ∧
    (httpDialerDialContext .http true .deadlineExceeded "tcp"
        ⟨true, "", true, "", true, "", true, "", 200, "200 OK"⟩ none).2.1 = false :=
  http_dialers_honor_precanceled_context .http true "tcp"
    ⟨true, "", true, "", true, "", true, "", 200, "200 OK"⟩ none (Or.inl rfl)

/-- Counterexample to C6 as stated: the SOCKS4 dialer invoked with an
already-canceled context still attempts the socket connect to the
intermediary and, the negotiation succeeding, returns the connection
instead of a cancellation error. -/
theorem socks_dial_connects_despite_canceled_context :
    (socksDialContext .socks4 ⟨"", "", false⟩ .canceled "tcp" []
        (.v4 [93, 184, 216, 34]) 80 true [0x00, 0x5A, 0, 0, 0, 0, 0, 0] none).1
      = .ok () ∧
    (socksDialContext .socks4 ⟨"", "", false⟩ .canceled "tcp" []
        (.v4 [93, 184, 216, 34]) 80 true [0x00, 0x5A, 0, 0, 0, 0, 0, 0] none).2.2.1
      = true :=
  ⟨rfl, rfl⟩

/-- The CONNECT response handling reduced to its status mapping when the
request write and response parse succeed. -/
theorem sendConnectRequest_status (w : HttpWorld) (hwr : w.writeOk = true)
    (hr : w.respReadOk = true) :
    sendConnectRequest w =
      if w.respStatus = 407 then .error .httpProxyAuth
      else if w.respStatus = 200 then .ok ()
      else .error (.wrapped w.respStatusText .proxyProtocol) := by
  simp only [sendConnectRequest, hwr, hr, Bool.not_true, Bool.false_eq_true, if_false]
  by_cases h4 : w.respStatus = 407
  · simp [h4]
  · by_cases h2 : w.respStatus = 200
    · simp [h4, h2]
    · simp [h4, h2]

/-- The HTTP-family dial with a live context on a TCP network reduces to
the per-variant negotiation. -/
theorem httpDialer_live_eq (pt : HProxyType) (tlsSet : Bool) (network : String)
    (w : HttpWorld) (ms : Option MC)
    (hnet : network = "tcp" ∨ network = "tcp4" ∨ network = "tcp6") :
    httpDialerDialContext pt tlsSet .live network w ms =
      (match (match pt with
              | .http => dialHTTP .live w
              | .https => dialHTTPS tlsSet .live w
              | .http2 => dialHTTP2 w).1 with
       | .error e =>
         (.error e,
          (match pt with
           | .http => dialHTTP .live w
           | .https => dialHTTPS tlsSet .live w
           | .http2 => dialHTTP2 w).2,
          withMC MC.recordFailure (withMC (fun m => MC.recordConnection m 0) ms))
       | .ok c =>
         (.ok c,
          (match pt with
           | .http => dialHTTP .live w
           | .https => dialHTTPS tlsSet .live w
           | .http2 => dialHTTP2 w).2,
          withMC (fun m => MC.recordConnection (MC.incActive m) 0)
            (withMC (fun m => MC.recordConnection m 0) ms))) := by
  rcases hnet with h | h | h <;> subst h <;> rfl

/-- C7: through an HTTP or HTTPS intermediary whose connect, request
write, response parse (and for HTTPS the TLS handshake) succeed, a 407
CONNECT response surfaces as the bare authentication-failure error
`ErrHTTPProxyAuth` — a value distinct from any wrapped
`ErrProxyProtocol` — a 200 response yields the open tunnel, and any
other status yields `ErrProxyProtocol` wrapped with the status text. -/
theorem http_connect_status_mapping (network : String) (w : HttpWorld) (ms : Option MC)
    (hnet : network = "tcp" ∨ network = "tcp4" ∨ network = "tcp6")
    (hc : w.connectOk = true) (hwr : w.writeOk = true) (hr : w.respReadOk = true)
    (htls : w.tlsOk = true) :
    (w.respStatus = 407 →
      (httpDialerDialContext .http true .live network w ms).1
        = .error .httpProxyAuth ∧
      (httpDialerDialContext .https true .live network w ms).1
        = .error .httpProxyAuth) ∧
    (w.respStatus = 200 →
      (httpDialerDialContext .http true .live network w ms).1 = .ok .tunnel ∧
      (httpDialerDialContext .https true .live network w ms).1 = .ok .tlsTunnel) ∧
    (w.respStatus ≠ 200 → w.respStatus ≠ 407 →
      (httpDialerDialContext .http true .live network w ms).1
        = .error (.wrapped w.respStatusText .proxyProtocol) ∧
      (httpDialerDialContext .https true .live network w ms).1
        = .error (.wrapped w.respStatusText .proxyProtocol)) ∧
    (∀ s, PErr.httpProxyAuth ≠ PErr.wrapped s PErr.proxyProtocol) := by
  rw [httpDialer_live_eq .http true network w ms hnet,
      httpDialer_live_eq .https true network w ms hnet]
  have hs := sendConnectRequest_status w hwr hr
  refine ⟨fun h4 => ?_, fun h2 => ?_, fun hn2 hn4 => ?_, fun s => by simp⟩
  · constructor <;> simp [dialHTTP, dialHTTPS, hc, htls, hs, h4]
  · constructor <;> simp [dialHTTP, dialHTTPS, hc, htls, hs, h2]
  · constructor <;> simp [dialHTTP, dialHTTPS, hc, htls, hs, hn2, hn4]

/-- Witness for C7: a 407 response from a concrete HTTP and HTTPS dial
surfaces the authentication-failure error. -/
theorem http_connect_status_mapping_inst :
    (httpDialerDialContext .http true .live "tcp"
        ⟨true, "", true, "", true, "", true, "", 407,
         "407 Proxy Authentication Required"⟩ none).1 = .error .httpProxyAuth ∧
    (httpDialerDialContext .https true .live "tcp"
        ⟨true, "", true, "", true, "", true, "", 407,
         "407 Proxy Authentication Required"⟩ none).1 = .error .httpProxyAuth :=
  (http_connect_status_mapping "tcp"
    ⟨true, "", true, "", true, "", true, "", 407, "407 Proxy Authentication Required"⟩
    none (Or.inl rfl) rfl rfl rfl rfl).1 rfl

/-- The Stats snapshot satisfies the sum identity by construction. -/
theorem poolStats_total_sum (p : Pool) :
    (poolStats p).TotalCount = (poolStats p).ActiveCount + (poolStats p).IdleCount :=
  rfl

/-- Entries surviving the per-key cleanup filter are unexpired and
probe-alive. -/
theorem cleanEntries_keeps_only_live (now : Int) :
    ∀ (l : List Entry) (e : Entry), e ∈ (cleanEntries now l).1 →
      ¬ now > e.expiryTime ∧ e.conn.alive = true := by
  intro l
  induction l with
  | nil => intro e he; simp [cleanEntries] at he
  | cons a rest ih =>
    intro e he
    simp only [cleanEntries] at he
    by_cases hexp : now > a.expiryTime
    · rw [if_pos hexp] at he
      exact ih e he
    · rw [if_neg hexp] at he
      by_cases hal : a.conn.alive = true
      · rw [if_neg (by simp [hal])] at he
        rcases List.mem_cons.mp he with hea | hin
        · subst hea; exact ⟨hexp, hal⟩
        · exact ih e hin
      · rw [Bool.not_eq_true] at hal
        rw [if_pos (by simp [hal])] at he
        exact ih e he

/-- After a cleanup sweep every remaining idle entry is unexpired and
probe-alive. -/
theorem poolCleanUp_keeps_only_live (now : Int) (p : Pool) :
    ∀ kv, kv ∈ (poolCleanUp now p).idle → ∀ e, e ∈ kv.2 →
      ¬ now > e.expiryTime ∧ e.conn.alive = true := by
  intro kv hkv e he
  simp only [poolCleanUp, List.mem_map, List.mem_filter] at hkv
  obtain ⟨a, ⟨hamem, -⟩, haeq⟩ := hkv
  obtain ⟨kv0, hk0mem, hk0eq⟩ := hamem
  subst hk0eq
  subst haeq
  exact cleanEntries_keeps_only_live now kv0.2 e he

/-- C8: evaluation of the counter bookkeeping at concrete scenarios. A
fresh dial hands out a connection without touching the pool counters;
releasing it then drives `active` to -1 although nothing is outstanding;
reusing one idle connection bumps `active` by 2 (it is incremented twice
in Get); a cleanup of one expired idle entry also drives `active`
to -1. Each diverges from the claim that ActiveCount equals the number
of connections handed out and not yet returned. -/
theorem pool_counter_divergence :
    (managerDialContext 0 ⟨[], 0, 5, 10, 100⟩ "tcp" "a"
        (some (.ok ⟨1, true⟩)) none).1 = .ok ⟨⟨1, true⟩, "tcp", "a", false⟩ ∧
    (managerDialContext 0 ⟨[], 0, 5, 10, 100⟩ "tcp" "a"
        (some (.ok ⟨1, true⟩)) none).2.1.active = 0 ∧
    (poolStats (poolConnClose 5 ⟨⟨1, true⟩, "tcp", "a", false⟩ ⟨[], 0, 5, 10, 100⟩
        none).2.1).ActiveCount = -1 ∧
    (poolStats (poolConnClose 5 ⟨⟨1, true⟩, "tcp", "a", false⟩ ⟨[], 0, 5, 10, 100⟩
        none).2.1).IdleCount = 1 ∧
    (poolGet 0 ⟨[("tcp:a", [⟨⟨1, true⟩, 10⟩])], 0, 5, 10, 100⟩ "tcp" "a"
        none).2.1.active = 2 ∧
    (poolCleanUp 0 ⟨[("k", [⟨⟨3, true⟩, -1⟩])], 0, 5, 10, 100⟩).active = -1 ∧
    (poolCleanUp 0 ⟨[("k", [⟨⟨3, true⟩, -1⟩])], 0, 5, 10, 100⟩).idle = [] :=
  ⟨rfl, rfl, rfl, rfl, rfl, rfl, rfl⟩

/-- The non-metrics components of Get do not depend on the sink. -/
theorem poolGet_ms_inert (now : Int) (p : Pool) (network addr : String)
    (ms : Option MC) :
    (poolGet now p network addr ms).1 = (poolGet now p network addr none).1 ∧
    (poolGet now p network addr ms).2.1 = (poolGet now p network addr none).2.1 ∧
    (poolGet now p network addr ms).2.2.1
      = (poolGet now p network addr none).2.2.1 := by
  refine ⟨?_, ?_, ?_⟩ <;> (simp only [poolGet]; repeat' (first | rfl | split))

/-- The non-metrics components of Put do not depend on the sink. -/
theorem poolPut_ms_inert (now : Int) (p : Pool) (network addr : String) (c : PConn)
    (ms : Option MC) :
    (poolPut now p network addr c ms).1 = (poolPut now p network addr c none).1 ∧
    (poolPut now p network addr c ms).2.1
      = (poolPut now p network addr c none).2.1 := by
  refine ⟨?_, ?_⟩ <;> (simp only [poolPut]; repeat' (first | rfl | split))

/-- The non-metrics components of the wrapper release do not depend on
the sink. -/
theorem poolConnClose_ms_inert (now : Int) (w : PoolConnW) (p : Pool)
    (ms : Option MC) :
    (poolConnClose now w p ms).1 = (poolConnClose now w p none).1 ∧
    (poolConnClose now w p ms).2.1 = (poolConnClose now w p none).2.1 ∧
    (poolConnClose now w p ms).2.2.1 = (poolConnClose now w p none).2.2.1 := by
  have hp := poolPut_ms_inert now p w.network w.addr w.conn ms
  by_cases hr : w.released = true
  · simp [poolConnClose, hr]
  · rw [Bool.not_eq_true] at hr
    by_cases hal : w.conn.alive = true
    · refine ⟨?_, ?_, ?_⟩ <;> simp [poolConnClose, hr, hal, hp.1, hp.2]
    · rw [Bool.not_eq_true] at hal
      simp [poolConnClose, hr, hal]

/-- The non-metrics components of the HTTP-family dial do not depend on
the sink. -/
theorem httpDialer_ms_inert (pt : HProxyType) (tlsSet : Bool) (ctx : CtxState)
    (network : String) (w : HttpWorld) (ms : Option MC) :
    (httpDialerDialContext pt tlsSet ctx network w ms).1
      = (httpDialerDialContext pt tlsSet ctx network w none).1 ∧
    (httpDialerDialContext pt tlsSet ctx network w ms).2.1
      = (httpDialerDialContext pt tlsSet ctx network w none).2.1 := by
  refine ⟨?_, ?_⟩ <;>
    (simp only [httpDialerDialContext]; repeat' (first | rfl | split))

/-- The non-metrics components of the SOCKS dial do not depend on the
sink. -/
theorem socksDialer_ms_inert (pt : SProxyType) (cfg : SOCKSConfig) (ctx : CtxState)
    (network : String) (host : List Nat) (ip : ParsedIP) (port : Nat)
    (connectOk : Bool) (server : List Nat) (ms : Option MC) :
    (socksDialContext pt cfg ctx network host ip port connectOk server ms).1
      = (socksDialContext pt cfg ctx network host ip port connectOk server none).1 ∧
    (socksDialContext pt cfg ctx network host ip port connectOk server ms).2.1
      = (socksDialContext pt cfg ctx network host ip port connectOk server none).2.1 ∧
    (socksDialContext pt cfg ctx network host ip port connectOk server ms).2.2.1
      = (socksDialContext pt cfg ctx network host ip port connectOk server
          none).2.2.1 := by
  refine ⟨?_, ?_, ?_⟩ <;>
    (simp only [socksDialContext]; repeat' (first | rfl | split))

/-- The returned result and the pool state of the manager dial do not
depend on the sink. -/
theorem managerDial_ms_inert (now : Int) (p : Pool) (network addr : String)
    (dialer : Option (Except PErr PConn)) (ms : Option MC) :
    (managerDialContext now p network addr dialer ms).1
      = (managerDialContext now p network addr dialer none).1 ∧
    (managerDialContext now p network addr dialer ms).2.1
      = (managerDialContext now p network addr dialer none).2.1 := by
  have hg := poolGet_ms_inert now p network addr (withMC MC.recordProtocol ms)
  have hnone : (withMC MC.recordProtocol none : Option MC) = none := rfl
  refine ⟨?_, ?_⟩ <;>
    (simp only [managerDialContext, hnone]
     rw [hg.1, hg.2.1]
     repeat' (first | rfl | split))

/-- C9: for the pool operations and every dialer the returned
connection/error result, the pool state, the bytes written, and the
connect-attempt behaviour are identical whether the metrics sink is
present or absent — metrics recording never affects the dial outcome,
and an absent sink is simply skipped. -/
theorem metrics_sink_inert (now : Int) (p : Pool) (network addr : String) (c : PConn)
    (w : PoolConnW) (pt : HProxyType) (tlsSet : Bool) (ctx : CtxState)
    (hw : HttpWorld) (spt : SProxyType) (scfg : SOCKSConfig) (host : List Nat)
    (ip : ParsedIP) (port : Nat) (connectOk : Bool) (server : List Nat)
    (dialer : Option (Except PErr PConn)) (ms : Option MC) :
    ((poolGet now p network addr ms).1 = (poolGet now p network addr none).1 ∧
     (poolGet now p network addr ms).2.1 = (poolGet now p network addr none).2.1 ∧
     (poolGet now p network addr ms).2.2.1
       = (poolGet now p network addr none).2.2.1) ∧
    ((poolPut now p network addr c ms).1 = (poolPut now p network addr c none).1 ∧
     (poolPut now p network addr c ms).2.1
       = (poolPut now p network addr c none).2.1) ∧
    ((poolConnClose now w p ms).1 = (poolConnClose now w p none).1 ∧
     (poolConnClose now w p ms).2.1 = (poolConnClose now w p none).2.1 ∧
     (poolConnClose now w p ms).2.2.1 = (poolConnClose now w p none).2.2.1) ∧
    ((httpDialerDialContext pt tlsSet ctx network hw ms).1
       = (httpDialerDialContext pt tlsSet ctx network hw none).1 ∧
     (httpDialerDialContext pt tlsSet ctx network hw ms).2.1
       = (httpDialerDialContext pt tlsSet ctx network hw none).2.1) ∧
    ((socksDialContext spt scfg ctx network host ip port connectOk server ms).1
       = (socksDialContext spt scfg ctx network host ip port connectOk server
           none).1 ∧
     (socksDialContext spt scfg ctx network host ip port connectOk server ms).2.1
       = (socksDialContext spt scfg ctx network host ip port connectOk server
           none).2.1 ∧
     (socksDialContext spt scfg ctx network host ip port connectOk server ms).2.2.1
       = (socksDialContext spt scfg ctx network host ip port connectOk server
           none).2.2.1) ∧
    ((managerDialContext now p network addr dialer ms).1
       = (managerDialContext now p network addr dialer none).1 ∧
     (managerDialContext now p network addr dialer ms).2.1
       = (managerDialContext now p network addr dialer none).2.1) :=
  ⟨poolGet_ms_inert now p network addr ms,
   poolPut_ms_inert now p network addr c ms,
   poolConnClose_ms_inert now w p ms,
   httpDialer_ms_inert pt tlsSet ctx network hw ms,
   socksDialer_ms_inert spt scfg ctx network host ip port connectOk server ms,
   managerDial_ms_inert now p network addr dialer ms⟩

end GoHookProxy
